import Mathlib

/-!
# Server configuration of velaux (`pkg/server/config/config.go`)

A shallow embedding of the `Config` struct, its constructor `NewConfig`, the
check `Validate` and the flag registration `AddFlags`.

Conventions of the embedding

* Go `string` is `String`; `time.Duration` and `int` are `Int` (a duration is a
  count of nanoseconds); `[]string` is `List String`.
* `float64` is the rational number the value denotes (`Float64`); the constant
  `100` of `NewConfig` is exactly representable. NaN and the infinities are not
  covered.
* `uuid.New().String()` reads the random source; `NewConfig` takes the string it
  produced as an argument. A failing random source makes `uuid.New` panic, in
  which case `NewConfig` returns no configuration at all.
* A method with a pointer receiver returns the state of the receiver next to its
  result.
* A Go `error` is represented by the text its `Error()` method returns.
-/

namespace config

/-! ## Data model -/

/-- The values of `float64`, as the rationals they denote. -/
abbrev Float64 := Rat

/-- One nanosecond, the unit of `time.Duration`. -/
def time.Nanosecond : Int := 1
/-- The constant `time.Microsecond`. -/
def time.Microsecond : Int := 1000 * time.Nanosecond
/-- The constant `time.Millisecond`. -/
def time.Millisecond : Int := 1000 * time.Microsecond
/-- The constant `time.Second`. -/
def time.Second : Int := 1000 * time.Millisecond
/-- The constant `time.Minute`. -/
def time.Minute : Int := 60 * time.Second

/-- The struct `datastore.Config`, with the three fields this package uses;
`Type_` is its field `Type`, a reserved word here. -/
structure DatastoreConfig where
  Type_ : String
  Database : String
  URL : String
  deriving DecidableEq, Repr

/-- The struct `PluginConfig`: the plugin directory config. -/
structure PluginConfig where
  CorePluginPath : String
  CustomPluginPath : List String
  deriving DecidableEq, Repr

/-- The struct `leaderConfig`. -/
structure leaderConfig where
  ID : String
  LockName : String
  Duration : Int
  deriving DecidableEq, Repr

/-- The struct `Config`: config for server. -/
structure Config where
  BindAddr : String
  MetricPath : String
  Datastore : DatastoreConfig
  LeaderConfig : leaderConfig
  AddonCacheTime : Int
  DisableStatisticCronJob : Bool
  KubeBurst : Int
  KubeQPS : Float64
  WorkflowVersion : String
  PluginConfig : PluginConfig
  DexServerURL : String
  ExitOnLostLeader : Bool
  deriving DecidableEq

/-- A Go `error`, represented by its message. -/
structure GoError where
  msg : String
  deriving DecidableEq, Repr

/-! ## NewConfig and Validate -/

/-- `NewConfig` returns a Config struct with default values; `id` is the value
of `uuid.New().String()` in this call. The fields absent from the composite
literal (`WorkflowVersion`) hold the zero value of their type. -/
def NewConfig (id : String) : Config :=
  { BindAddr := "0.0.0.0:8000"
    MetricPath := "/metrics"
    Datastore :=
      { Type_ := "kubeapi"
        Database := "kubevela"
        URL := "" }
    LeaderConfig :=
      { ID := id
        LockName := "apiserver-lock"
        Duration := time.Second * 5 }
    AddonCacheTime := time.Minute * 10
    DisableStatisticCronJob := false
    KubeQPS := 100
    KubeBurst := 300
    WorkflowVersion := ""
    PluginConfig :=
      { CorePluginPath := "core-plugins"
        CustomPluginPath := ["plugins"] }
    DexServerURL := "http://dex.vela-system:5556"
    ExitOnLostLeader := true }

/-- `fmt.Errorf("not support datastore type %s", t)`: the verb `%s` is replaced
by the string argument. -/
def errNotSupport (t : String) : GoError :=
  ⟨"not support datastore type " ++ t⟩

/-- `(s *Config).Validate`: validate generic server run options. The first
component is the returned `[]error`, the second is `*s` when the method
returns: the body holds no assignment through `s`. -/
def Validate (s : Config) : List GoError × Config :=
  let errs : List GoError := []
  let errs :=
    if s.Datastore.Type_ ≠ "mongodb" ∧ s.Datastore.Type_ ≠ "kubeapi" ∧ s.Datastore.Type_ ≠ "postgres" then
      errs ++ [errNotSupport s.Datastore.Type_]
    else errs
  (errs, s)

/-! ## Addressing the fields of a configuration

`AddFlags` hands pointers such as `&s.BindAddr` to the flag set. A pointer into
`*s` is the name of the leaf field it addresses; reading and writing through it
are `Config.get` and `Config.set`. -/

/-- The leaf fields of `Config`, nested structs flattened. -/
inductive Field
  | BindAddr | MetricPath
  | DatastoreType | DatastoreDatabase | DatastoreURL
  | LeaderID | LeaderLockName | LeaderDuration
  | AddonCacheTime | DisableStatisticCronJob | KubeBurst | KubeQPS
  | WorkflowVersion | CorePluginPath | CustomPluginPath | DexServerURL
  | ExitOnLostLeader
  deriving DecidableEq, Repr

/-- The six Go types the fields of `Config` have. -/
inductive Kind
  | string | duration | bool | float64 | int | stringArray
  deriving DecidableEq, Repr

/-- A value of one of the six field types. -/
inductive Val
  | string (v : String)
  | duration (v : Int)
  | bool (v : Bool)
  | float64 (v : Float64)
  | int (v : Int)
  | stringArray (v : List String)
  deriving DecidableEq

/-- The Go type of a value. -/
def Val.kind : Val → Kind
  | .string _ => .string
  | .duration _ => .duration
  | .bool _ => .bool
  | .float64 _ => .float64
  | .int _ => .int
  | .stringArray _ => .stringArray

/-- The declared type of each field of `Config`. -/
def Field.kind : Field → Kind
  | .BindAddr => .string
  | .MetricPath => .string
  | .DatastoreType => .string
  | .DatastoreDatabase => .string
  | .DatastoreURL => .string
  | .LeaderID => .string
  | .LeaderLockName => .string
  | .LeaderDuration => .duration
  | .AddonCacheTime => .duration
  | .DisableStatisticCronJob => .bool
  | .KubeBurst => .int
  | .KubeQPS => .float64
  | .WorkflowVersion => .string
  | .CorePluginPath => .string
  | .CustomPluginPath => .stringArray
  | .DexServerURL => .string
  | .ExitOnLostLeader => .bool

/-- Reading a field of `s`. -/
def Config.get (s : Config) : Field → Val
  | .BindAddr => .string s.BindAddr
  | .MetricPath => .string s.MetricPath
  | .DatastoreType => .string s.Datastore.Type_
  | .DatastoreDatabase => .string s.Datastore.Database
  | .DatastoreURL => .string s.Datastore.URL
  | .LeaderID => .string s.LeaderConfig.ID
  | .LeaderLockName => .string s.LeaderConfig.LockName
  | .LeaderDuration => .duration s.LeaderConfig.Duration
  | .AddonCacheTime => .duration s.AddonCacheTime
  | .DisableStatisticCronJob => .bool s.DisableStatisticCronJob
  | .KubeBurst => .int s.KubeBurst
  | .KubeQPS => .float64 s.KubeQPS
  | .WorkflowVersion => .string s.WorkflowVersion
  | .CorePluginPath => .string s.PluginConfig.CorePluginPath
  | .CustomPluginPath => .stringArray s.PluginConfig.CustomPluginPath
  | .DexServerURL => .string s.DexServerURL
  | .ExitOnLostLeader => .bool s.ExitOnLostLeader

/-- The assignment `s.f = v`. Go's types rule out a value of another type than
the field's; such a pair leaves `s` as it is. -/
def Config.set (s : Config) : Field → Val → Config
  | .BindAddr, .string v => { s with BindAddr := v }
  | .MetricPath, .string v => { s with MetricPath := v }
  | .DatastoreType, .string v => { s with Datastore := { s.Datastore with Type_ := v } }
  | .DatastoreDatabase, .string v => { s with Datastore := { s.Datastore with Database := v } }
  | .DatastoreURL, .string v => { s with Datastore := { s.Datastore with URL := v } }
  | .LeaderID, .string v => { s with LeaderConfig := { s.LeaderConfig with ID := v } }
  | .LeaderLockName, .string v => { s with LeaderConfig := { s.LeaderConfig with LockName := v } }
  | .LeaderDuration, .duration v => { s with LeaderConfig := { s.LeaderConfig with Duration := v } }
  | .AddonCacheTime, .duration v => { s with AddonCacheTime := v }
  | .DisableStatisticCronJob, .bool v => { s with DisableStatisticCronJob := v }
  | .KubeBurst, .int v => { s with KubeBurst := v }
  | .KubeQPS, .float64 v => { s with KubeQPS := v }
  | .WorkflowVersion, .string v => { s with WorkflowVersion := v }
  | .CorePluginPath, .string v => { s with PluginConfig := { s.PluginConfig with CorePluginPath := v } }
  | .CustomPluginPath, .stringArray v => { s with PluginConfig := { s.PluginConfig with CustomPluginPath := v } }
  | .DexServerURL, .string v => { s with DexServerURL := v }
  | .ExitOnLostLeader, .bool v => { s with ExitOnLostLeader := v }
  | _, _ => s

/-- A pointer handed to the flag set: into the configuration `*s`, or to a
variable outside of it (a package variable of another package). -/
inductive Ptr
  | field (f : Field)
  | outside
  deriving DecidableEq, Repr

/-- The assignment `*p = v`, as far as `*s` is concerned. -/
def Ptr.store (p : Ptr) (s : Config) (v : Val) : Config :=
  match p with
  | .field f => s.set f v
  | .outside => s

/-- The value `*p`, when `p` points into `*s`. -/
def Ptr.load (p : Ptr) (s : Config) : Option Val :=
  match p with
  | .field f => some (s.get f)
  | .outside => none

/-! ## The flag-registration surface

`AddFlags` registers its flags with a `*pflag.FlagSet` (package
`github.com/spf13/pflag`), which is supplied by the environment and is not part
of this repository. What follows models the part of it that `AddFlags` and a
later override of a flag go through. Values are kept typed: the text of a
command line is turned into a value by the flag-parsing layer, and the default
a flag displays is the value it was registered with. Flag names are compared as
they are written (the flag set's default name normalisation). -/

/-- Modelled from the spec: a registered flag of the flag set (`pflag.Flag`),
"a name (flag-style token), a pointer/reference into the live configuration
value, a reference to the default configuration's corresponding field (used as
the displayed default), and a human-readable description". `Value` is the
pointer the flag writes through, `kind` the type of the variable behind it and
`Changed` whether the flag has been given a value since it was registered. -/
structure Flag where
  Name : String
  Usage : String
  Value : Ptr
  kind : Kind
  DefValue : Val
  Changed : Bool
  deriving DecidableEq

/-- Modelled from the spec: the flag set (`pflag.FlagSet`), its registered
flags in the order of their registration. -/
structure FlagSet where
  formal : List Flag
  deriving DecidableEq

/-- Modelled from the spec: the flag registered under `name`
(`pflag.FlagSet.Lookup`), if there is one. -/
def FlagSet.Lookup (fs : FlagSet) (name : String) : Option Flag :=
  fs.formal.find? (fun fl => fl.Name == name)

/-- Modelled from the spec: one registration with the flag set, the common body
of `StringVar`, `DurationVar`, `BoolVar`, `Float64Var`, `IntVar` and
`StringArrayVar`: the variable behind `p` is set to the default `value`, and a
flag of that name, pointer, default and description is appended. Registering a
name a second time is a panic of the flag set ("flag redefined"), rendered as
`Except.error`. -/
def FlagSet.bindVar (fs : FlagSet) (s : Config) (p : Ptr) (name : String) (value : Val)
    (usage : String) : Except String (FlagSet × Config) :=
  let s := p.store s value
  match fs.Lookup name with
  | some _ => .error ("flag redefined: " ++ name)
  | none =>
    .ok (⟨fs.formal ++ [{ Name := name, Usage := usage, Value := p, kind := value.kind,
                          DefValue := value, Changed := false }]⟩, s)

/-- Modelled from the spec: `pflag.FlagSet.StringVar(p, name, value, usage)`. -/
def FlagSet.StringVar (fs : FlagSet) (s : Config) (p : Ptr) (name : String) (value : String)
    (usage : String) : Except String (FlagSet × Config) :=
  fs.bindVar s p name (.string value) usage

/-- Modelled from the spec: `pflag.FlagSet.DurationVar(p, name, value, usage)`. -/
def FlagSet.DurationVar (fs : FlagSet) (s : Config) (p : Ptr) (name : String) (value : Int)
    (usage : String) : Except String (FlagSet × Config) :=
  fs.bindVar s p name (.duration value) usage

/-- Modelled from the spec: `pflag.FlagSet.BoolVar(p, name, value, usage)`. -/
def FlagSet.BoolVar (fs : FlagSet) (s : Config) (p : Ptr) (name : String) (value : Bool)
    (usage : String) : Except String (FlagSet × Config) :=
  fs.bindVar s p name (.bool value) usage

/-- Modelled from the spec: `pflag.FlagSet.Float64Var(p, name, value, usage)`. -/
def FlagSet.Float64Var (fs : FlagSet) (s : Config) (p : Ptr) (name : String) (value : Float64)
    (usage : String) : Except String (FlagSet × Config) :=
  fs.bindVar s p name (.float64 value) usage

/-- Modelled from the spec: `pflag.FlagSet.IntVar(p, name, value, usage)`. -/
def FlagSet.IntVar (fs : FlagSet) (s : Config) (p : Ptr) (name : String) (value : Int)
    (usage : String) : Except String (FlagSet × Config) :=
  fs.bindVar s p name (.int value) usage

/-- Modelled from the spec: `pflag.FlagSet.StringArrayVar(p, name, value,
usage)`, the "ordered multi-value field (repeatable flag)". -/
def FlagSet.StringArrayVar (fs : FlagSet) (s : Config) (p : Ptr) (name : String)
    (value : List String) (usage : String) : Except String (FlagSet × Config) :=
  fs.bindVar s p name (.stringArray value) usage

/-- Modelled from the spec: the write a flag performs when it is given the
value `v` (the `Set` method of the flag's `pflag.Value`). A scalar flag stores
`v`, which has to be of the flag's type. A string-array flag is given one
string at a time: the first one replaces the default, each later one is
appended. -/
def Flag.Set (fl : Flag) (s : Config) (v : Val) : Except String Config :=
  match fl.kind, v with
  | .stringArray, .string e =>
    if fl.Changed then
      match fl.Value.load s with
      | some (.stringArray cur) => .ok (fl.Value.store s (.stringArray (cur ++ [e])))
      | _ => .ok s
    else .ok (fl.Value.store s (.stringArray [e]))
  | .stringArray, _ => .error ("invalid argument for " ++ fl.Name)
  | k, v =>
    if v.kind = k then .ok (fl.Value.store s v)
    else .error ("invalid argument for " ++ fl.Name)

/-- Modelled from the spec: `pflag.FlagSet.Set(name, value)`, the override of
one flag by the flag-parsing layer: the flag of that name writes the value and
is marked as changed; an unknown name is an error. -/
def FlagSet.Set (fs : FlagSet) (s : Config) (name : String) (v : Val) :
    Except String (FlagSet × Config) :=
  match fs.Lookup name with
  | none => .error ("no such flag -" ++ name)
  | some fl =>
    match fl.Set s v with
    | .error e => .error e
    | .ok s1 =>
      .ok (⟨fs.formal.map (fun g => if g.Name == name then { g with Changed := true } else g)⟩, s1)

/-- Modelled from the spec: a repeated flag, `name` given the strings `vs` one
after the other (`--name v1 --name v2 ...`). -/
def FlagSet.SetAll (fs : FlagSet) (s : Config) (name : String) :
    List String → Except String (FlagSet × Config)
  | [] => .ok (fs, s)
  | v :: vs =>
    match fs.Set s name (.string v) with
    | .error e => .error e
    | .ok (fs1, s1) => FlagSet.SetAll fs1 s1 name vs

/-- A flag that `profiling.AddFlags` registers: package
`github.com/kubevela/pkg/util/profiling` is not part of this repository, so the
flags it declares are a parameter of `AddFlags`. It is handed the flag set
only, hence its flags are bound to variables outside of `*s`. -/
structure ProfilingFlag where
  Name : String
  Usage : String
  DefValue : Val
  deriving DecidableEq

/-- The call `profiling.AddFlags(fs)`: each flag of the package is registered in
turn. -/
def profiling.AddFlags (decls : List ProfilingFlag) (fs : FlagSet) (s : Config) :
    Except String (FlagSet × Config) :=
  match decls with
  | [] => .ok (fs, s)
  | d :: ds =>
    match fs.bindVar s .outside d.Name d.DefValue d.Usage with
    | .error e => .error e
    | .ok (fs1, s1) => profiling.AddFlags ds fs1 s1

/-! ## AddFlags -/

/-- `(s *Config).AddFlags(fs, c)` adds flags to the specified FlagSet. The
result is the flag set and `*s` after the call; `c` is only read (when `c` and
`s` are the same pointer, every write stores the value the field already has).
`prof` lists the flags of `profiling.AddFlags`. -/
def AddFlags (prof : List ProfilingFlag) (s : Config) (fs : FlagSet) (c : Config) :
    Except String (FlagSet × Config) := do
  let (fs, s) ← fs.StringVar s (.field .BindAddr) "bind-addr" c.BindAddr "The bind address used to serve the http APIs."
  let (fs, s) ← fs.StringVar s (.field .MetricPath) "metrics-path" c.MetricPath "The path to expose the metrics."
  let (fs, s) ← fs.StringVar s (.field .DatastoreType) "datastore-type" c.Datastore.Type_ "Metadata storage driver type, support kubeapi and mongodb"
  let (fs, s) ← fs.StringVar s (.field .DatastoreDatabase) "datastore-database" c.Datastore.Database "Metadata storage database name, takes effect when the storage driver is mongodb."
  let (fs, s) ← fs.StringVar s (.field .DatastoreURL) "datastore-url" c.Datastore.URL "Metadata storage database url,takes effect when the storage driver is mongodb."
  let (fs, s) ← fs.StringVar s (.field .LeaderID) "id" c.LeaderConfig.ID "the holder identity name"
  let (fs, s) ← fs.StringVar s (.field .LeaderLockName) "lock-name" c.LeaderConfig.LockName "the lease lock resource name"
  let (fs, s) ← fs.DurationVar s (.field .LeaderDuration) "duration" c.LeaderConfig.Duration "the lease lock resource name"
  let (fs, s) ← fs.DurationVar s (.field .AddonCacheTime) "addon-cache-duration" c.AddonCacheTime "how long between two addon cache operation"
  let (fs, s) ← fs.BoolVar s (.field .DisableStatisticCronJob) "disable-statistic-cronJob" c.DisableStatisticCronJob "close the system statistic info calculating cronJob"
  let (fs, s) ← fs.Float64Var s (.field .KubeQPS) "kube-api-qps" c.KubeQPS "the qps for kube clients. Low qps may lead to low throughput. High qps may give stress to api-server."
  let (fs, s) ← fs.IntVar s (.field .KubeBurst) "kube-api-burst" c.KubeBurst "the burst for kube clients. Recommend setting it qps*3."
  let (fs, s) ← fs.StringVar s (.field .WorkflowVersion) "workflow-version" c.WorkflowVersion "the version of workflow to meet controller requirement."
  let (fs, s) ← fs.StringVar s (.field .DexServerURL) "dex-server" c.DexServerURL "the URL of the dex server."
  let (fs, s) ← fs.StringArrayVar s (.field .CustomPluginPath) "plugin-path" c.PluginConfig.CustomPluginPath "the path of the plugin directory"
  let (fs, s) ← fs.BoolVar s (.field .ExitOnLostLeader) "exit-on-lost-leader" c.ExitOnLostLeader "exit the process if this server lost the leader election"
  profiling.AddFlags prof fs s

/-! ## The registrations of AddFlags as a table

For the proofs the sixteen calls of `AddFlags` are read as a list of
declarations, registered one after the other. -/

/-- One call of a `...Var` method: pointer, name, default and description. -/
structure Decl where
  p : Ptr
  name : String
  value : Val
  usage : String
  deriving DecidableEq

/-- The flag a declaration adds to the flag set. -/
def Decl.flag (d : Decl) : Flag :=
  { Name := d.name, Usage := d.usage, Value := d.p, kind := d.value.kind,
    DefValue := d.value, Changed := false }

/-- The declarations in turn, each through `FlagSet.bindVar`. -/
def registerAll : List Decl → FlagSet → Config → Except String (FlagSet × Config)
  | [], fs, s => .ok (fs, s)
  | d :: ds, fs, s =>
    match fs.bindVar s d.p d.name d.value d.usage with
    | .error e => .error e
    | .ok (fs1, s1) => registerAll ds fs1 s1

/-- The sixteen calls of `AddFlags`, lines 119 to 134 of the source, in order. -/
def ownDecls (c : Config) : List Decl :=
  [ ⟨.field .BindAddr, "bind-addr", .string c.BindAddr, "The bind address used to serve the http APIs."⟩,
    ⟨.field .MetricPath, "metrics-path", .string c.MetricPath, "The path to expose the metrics."⟩,
    ⟨.field .DatastoreType, "datastore-type", .string c.Datastore.Type_, "Metadata storage driver type, support kubeapi and mongodb"⟩,
    ⟨.field .DatastoreDatabase, "datastore-database", .string c.Datastore.Database, "Metadata storage database name, takes effect when the storage driver is mongodb."⟩,
    ⟨.field .DatastoreURL, "datastore-url", .string c.Datastore.URL, "Metadata storage database url,takes effect when the storage driver is mongodb."⟩,
    ⟨.field .LeaderID, "id", .string c.LeaderConfig.ID, "the holder identity name"⟩,
    ⟨.field .LeaderLockName, "lock-name", .string c.LeaderConfig.LockName, "the lease lock resource name"⟩,
    ⟨.field .LeaderDuration, "duration", .duration c.LeaderConfig.Duration, "the lease lock resource name"⟩,
    ⟨.field .AddonCacheTime, "addon-cache-duration", .duration c.AddonCacheTime, "how long between two addon cache operation"⟩,
    ⟨.field .DisableStatisticCronJob, "disable-statistic-cronJob", .bool c.DisableStatisticCronJob, "close the system statistic info calculating cronJob"⟩,
    ⟨.field .KubeQPS, "kube-api-qps", .float64 c.KubeQPS, "the qps for kube clients. Low qps may lead to low throughput. High qps may give stress to api-server."⟩,
    ⟨.field .KubeBurst, "kube-api-burst", .int c.KubeBurst, "the burst for kube clients. Recommend setting it qps*3."⟩,
    ⟨.field .WorkflowVersion, "workflow-version", .string c.WorkflowVersion, "the version of workflow to meet controller requirement."⟩,
    ⟨.field .DexServerURL, "dex-server", .string c.DexServerURL, "the URL of the dex server."⟩,
    ⟨.field .CustomPluginPath, "plugin-path", .stringArray c.PluginConfig.CustomPluginPath, "the path of the plugin directory"⟩,
    ⟨.field .ExitOnLostLeader, "exit-on-lost-leader", .bool c.ExitOnLostLeader, "exit the process if this server lost the leader election"⟩ ]

/-- The declaration behind a flag of `profiling.AddFlags`. -/
def ProfilingFlag.decl (d : ProfilingFlag) : Decl :=
  ⟨.outside, d.Name, d.DefValue, d.Usage⟩

/-- Everything `AddFlags` registers: its own sixteen flags, then the flags of
`profiling.AddFlags`. -/
def allDecls (prof : List ProfilingFlag) (c : Config) : List Decl :=
  ownDecls c ++ prof.map ProfilingFlag.decl

/-- The condition under which no registration of `AddFlags` redefines a flag:
the names to register are not in the flag set yet and differ from one another. -/
def namesFree (prof : List ProfilingFlag) (fs : FlagSet) (c : Config) : Prop :=
  (∀ d ∈ allDecls prof c, fs.Lookup d.name = none) ∧ ((allDecls prof c).map Decl.name).Nodup

/-- The configuration `*s` once the defaults of the declarations are stored. -/
def storeAll (ds : List Decl) (s : Config) : Config :=
  ds.foldl (fun s d => d.p.store s d.value) s

/-- Whether the names are free is decided by running through the lists. -/
instance namesFree.decidable (prof : List ProfilingFlag) (fs : FlagSet) (c : Config) :
    Decidable (namesFree prof fs c) := by
  unfold namesFree; infer_instance

/-! ## NewConfig and Validate: theorems -/

/-- C1: whatever identity the UUID generator produced, `Validate` returns the
empty error list on the configuration `NewConfig` returns. -/
theorem Validate_NewConfig (id : String) : (Validate (NewConfig id)).1 = [] := by
  simp [Validate, NewConfig]

/-- C2: when `Datastore.Type` is none of "kubeapi", "mongodb" and "postgres",
`Validate` returns exactly one error, whose message is "not support datastore
type " followed by the value of `Datastore.Type`. -/
theorem Validate_unsupported (s : Config) (hk : s.Datastore.Type_ ≠ "kubeapi")
    (hm : s.Datastore.Type_ ≠ "mongodb") (hp : s.Datastore.Type_ ≠ "postgres") :
    (Validate s).1 = [⟨"not support datastore type " ++ s.Datastore.Type_⟩] := by
  simp [Validate, errNotSupport, hk, hm, hp]

/-- C2 at the types "sqlite", "" and "KubeAPI", other fields as `NewConfig`
sets them. -/
theorem Validate_unsupported_witness :
    (Validate { NewConfig "u" with Datastore := ⟨"sqlite", "kubevela", ""⟩ }).1
        = [⟨"not support datastore type sqlite"⟩]
      ∧ (Validate { NewConfig "u" with Datastore := ⟨"", "kubevela", ""⟩ }).1
        = [⟨"not support datastore type "⟩]
      ∧ (Validate { NewConfig "u" with Datastore := ⟨"KubeAPI", "kubevela", ""⟩ }).1
        = [⟨"not support datastore type KubeAPI"⟩] :=
  ⟨Validate_unsupported { NewConfig "u" with Datastore := ⟨"sqlite", "kubevela", ""⟩ }
      (by decide) (by decide) (by decide),
   Validate_unsupported { NewConfig "u" with Datastore := ⟨"", "kubevela", ""⟩ }
      (by decide) (by decide) (by decide),
   Validate_unsupported { NewConfig "u" with Datastore := ⟨"KubeAPI", "kubevela", ""⟩ }
      (by decide) (by decide) (by decide)⟩

/-- C3: when `Datastore.Type` is "kubeapi", "mongodb" or "postgres", `Validate`
returns the empty list, whatever the other fields hold. -/
theorem Validate_supported (s : Config)
    (h : s.Datastore.Type_ = "kubeapi" ∨ s.Datastore.Type_ = "mongodb"
      ∨ s.Datastore.Type_ = "postgres") :
    (Validate s).1 = [] := by
  rcases h with h | h | h <;> simp [Validate, h]

/-- C3 at `KubeQPS = 50`, `KubeBurst = 150` with the default type, and at type
"mongodb" with empty `BindAddr`, `Database` and `URL`. -/
theorem Validate_supported_witness :
    (Validate { NewConfig "u" with KubeQPS := 50, KubeBurst := 150 }).1 = []
      ∧ (Validate { NewConfig "u" with BindAddr := "", Datastore := ⟨"mongodb", "", ""⟩ }).1 = [] :=
  ⟨Validate_supported { NewConfig "u" with KubeQPS := 50, KubeBurst := 150 } (Or.inl rfl),
   Validate_supported { NewConfig "u" with BindAddr := "", Datastore := ⟨"mongodb", "", ""⟩ }
      (Or.inr (Or.inl rfl))⟩

/-- C4: `Validate` leaves the configuration as it was: `*s` after the call is
`*s` before it, field by field, whether errors are returned or not. -/
theorem Validate_frame (s : Config) :
    (Validate s).2 = s ∧ ∀ f : Field, (Validate s).2.get f = s.get f :=
  ⟨rfl, fun _ => rfl⟩

/-- C5: the defaults of `NewConfig`: bind address "0.0.0.0:8000", datastore
type "kubeapi", lease duration five seconds (5000000000 ns), QPS 100, burst
300, which is three times the QPS, and exit-on-lost-leader set. -/
theorem NewConfig_defaults (id : String) :
    (NewConfig id).BindAddr = "0.0.0.0:8000"
      ∧ (NewConfig id).Datastore.Type_ = "kubeapi"
      ∧ (NewConfig id).LeaderConfig.Duration = 5 * time.Second
      ∧ (NewConfig id).LeaderConfig.Duration = 5000000000
      ∧ (NewConfig id).KubeQPS = 100
      ∧ (NewConfig id).KubeBurst = 300
      ∧ ((NewConfig id).KubeBurst : Rat) = 3 * (NewConfig id).KubeQPS
      ∧ (NewConfig id).ExitOnLostLeader = true := by
  refine ⟨rfl, rfl, ?_, ?_, rfl, rfl, ?_, rfl⟩
  · simp [NewConfig, mul_comm]
  · simp [NewConfig, time.Second, time.Millisecond, time.Microsecond, time.Nanosecond]
  · simp [NewConfig]; norm_num

/-- C6: two results of `NewConfig` agree on every field other than
`LeaderConfig.ID`, and differ from one another by that field alone. -/
theorem NewConfig_deterministic (id1 id2 : String) :
    (∀ f : Field, f ≠ .LeaderID → (NewConfig id1).get f = (NewConfig id2).get f)
      ∧ (NewConfig id1).set .LeaderID (.string id2) = NewConfig id2 := by
  refine ⟨fun f hf => ?_, rfl⟩
  cases f <;> first | rfl | exact absurd rfl hf

/-- C7: two independent calls of `NewConfig` never produce the same
`LeaderConfig.ID`. Independent calls of `uuid.New` generate different
identities (`id1 ≠ id2`); each configuration carries the identity generated in
its own call, unaltered and not a fixed constant, so the two IDs differ. -/
theorem NewConfig_ID_distinct (id1 id2 : String) (h : id1 ≠ id2) :
    (NewConfig id1).LeaderConfig.ID = id1
      ∧ (NewConfig id2).LeaderConfig.ID = id2
      ∧ (NewConfig id1).LeaderConfig.ID ≠ (NewConfig id2).LeaderConfig.ID :=
  ⟨rfl, rfl, h⟩

/-- C7 at two generated identities. -/
theorem NewConfig_ID_distinct_witness :
    "7c9e6679-7425-40de-944b-e07fc1f90ae7" ≠ "16fd2706-8baf-433b-82eb-8c7fada847da"
      ∧ (NewConfig "7c9e6679-7425-40de-944b-e07fc1f90ae7").LeaderConfig.ID
          = "7c9e6679-7425-40de-944b-e07fc1f90ae7"
      ∧ (NewConfig "16fd2706-8baf-433b-82eb-8c7fada847da").LeaderConfig.ID
          = "16fd2706-8baf-433b-82eb-8c7fada847da"
      ∧ (NewConfig "7c9e6679-7425-40de-944b-e07fc1f90ae7").LeaderConfig.ID
          ≠ (NewConfig "16fd2706-8baf-433b-82eb-8c7fada847da").LeaderConfig.ID :=
  ⟨by decide,
    NewConfig_ID_distinct "7c9e6679-7425-40de-944b-e07fc1f90ae7"
      "16fd2706-8baf-433b-82eb-8c7fada847da" (by decide)⟩

/-! ## AddFlags: auxiliary lemmas -/

/-- Registering a non-empty list: the first declaration, then the others. -/
theorem registerAll_cons (d : Decl) (ds : List Decl) (fs : FlagSet) (s : Config) :
    registerAll (d :: ds) fs s
      = fs.bindVar s d.p d.name d.value d.usage >>= fun r => registerAll ds r.1 r.2 := by
  cases h : fs.bindVar s d.p d.name d.value d.usage with
  | error e => simp [registerAll, h, bind, Except.bind]
  | ok r => obtain ⟨fs1, s1⟩ := r; simp [registerAll, h, bind, Except.bind]

/-- The call `profiling.AddFlags` is the registration of its declarations. -/
theorem profiling_AddFlags_eq (prof : List ProfilingFlag) (fs : FlagSet) (s : Config) :
    profiling.AddFlags prof fs s = registerAll (prof.map ProfilingFlag.decl) fs s := by
  induction prof generalizing fs s with
  | nil => rfl
  | cons d ds ih =>
    simp only [profiling.AddFlags, List.map_cons, registerAll, ProfilingFlag.decl]
    cases h : fs.bindVar s .outside d.Name d.DefValue d.Usage with
    | error e => rfl
    | ok r => obtain ⟨fs1, s1⟩ := r; simpa [ProfilingFlag.decl] using ih fs1 s1

/-- The body of `AddFlags`, call by call, is the registration of `allDecls`. -/
theorem AddFlags_eq (prof s fs c) : AddFlags prof s fs c = registerAll (allDecls prof c) fs s := by
  unfold AddFlags
  simp only [allDecls, ownDecls, List.cons_append, List.nil_append, registerAll_cons,
    FlagSet.StringVar, FlagSet.DurationVar, FlagSet.BoolVar, FlagSet.Float64Var, FlagSet.IntVar,
    FlagSet.StringArrayVar]
  repeat (refine congrArg _ (funext fun ⟨fs, s⟩ => ?_); dsimp only)
  exact profiling_AddFlags_eq prof _ _


/-- A name stays free when a flag of another name is appended. -/
theorem Lookup_snoc_none (l : List Flag) (fl : Flag) (n : String)
    (h : (FlagSet.mk l).Lookup n = none) (hn : fl.Name ≠ n) :
    (FlagSet.mk (l ++ [fl])).Lookup n = none := by
  simp only [FlagSet.Lookup, List.find?_eq_none] at h ⊢
  intro x hx
  rcases List.mem_append.1 hx with hx | hx
  · exact h x hx
  · simp only [List.mem_singleton] at hx
    subst hx
    simpa using hn

/-- Free and pairwise distinct names: every registration goes through, the
flags are appended in order and the defaults are stored. -/
theorem registerAll_ok (ds : List Decl) (fs : FlagSet) (s : Config)
    (hfree : ∀ d ∈ ds, fs.Lookup d.name = none) (hnd : (ds.map Decl.name).Nodup) :
    registerAll ds fs s = .ok (⟨fs.formal ++ ds.map Decl.flag⟩, storeAll ds s) := by
  induction ds generalizing fs s with
  | nil => simp [registerAll, storeAll]
  | cons d ds ih =>
    have hd : fs.Lookup d.name = none := hfree d (List.mem_cons_self _ _)
    simp only [List.map_cons, List.nodup_cons] at hnd
    simp only [registerAll, FlagSet.bindVar, hd]
    rw [ih]
    · simp [storeAll, Decl.flag]
    · intro e he
      apply Lookup_snoc_none
      · exact hfree e (List.mem_cons_of_mem _ he)
      · intro hname
        have hname2 : d.name = e.name := hname
        exact hnd.1 (hname2 ▸ List.mem_map_of_mem Decl.name he)
    · exact hnd.2

/-- Conversely, a registration that returns had free, pairwise distinct names. -/
theorem registerAll_ok_imp (ds : List Decl) (fs : FlagSet) (s : Config) (r : FlagSet × Config)
    (h : registerAll ds fs s = .ok r) :
    (∀ d ∈ ds, fs.Lookup d.name = none) ∧ (ds.map Decl.name).Nodup := by
  induction ds generalizing fs s with
  | nil => simp
  | cons d ds ih =>
    simp only [registerAll, FlagSet.bindVar] at h
    cases hd : fs.Lookup d.name with
    | some fl => simp [hd] at h
    | none =>
      simp only [hd] at h
      obtain ⟨h1, h2⟩ := ih _ _ h
      have key : ∀ e ∈ ds, fs.Lookup e.name = none ∧ d.name ≠ e.name := by
        intro e he
        have := h1 e he
        simp only [FlagSet.Lookup, List.find?_eq_none, List.mem_append, List.mem_singleton] at this ⊢
        refine ⟨fun x hx => this x (Or.inl hx), ?_⟩
        have := this _ (Or.inr rfl)
        simpa using this
      refine ⟨?_, ?_⟩
      · intro e he
        rcases List.mem_cons.1 he with rfl | he
        · exact hd
        · exact (key e he).1
      · simp only [List.map_cons, List.nodup_cons]
        refine ⟨?_, h2⟩
        intro hmem
        obtain ⟨e, he, hname⟩ := List.mem_map.1 hmem
        exact (key e he).2 hname.symm


/-- The leaf fields are all there is to a configuration: two configurations
that agree on every `Field` are equal. -/
theorem Config.ext_get (a b : Config) (h : ∀ f : Field, a.get f = b.get f) : a = b := by
  obtain ⟨a1, a2, ⟨a3, a4, a5⟩, ⟨a6, a7, a8⟩, a9, a10, a11, a12, a13, ⟨a14, a15⟩, a16, a17⟩ := a
  obtain ⟨b1, b2, ⟨b3, b4, b5⟩, ⟨b6, b7, b8⟩, b9, b10, b11, b12, b13, ⟨b14, b15⟩, b16, b17⟩ := b
  have h1 := h .BindAddr
  have h2 := h .MetricPath
  have h3 := h .DatastoreType
  have h4 := h .DatastoreDatabase
  have h5 := h .DatastoreURL
  have h6 := h .LeaderID
  have h7 := h .LeaderLockName
  have h8 := h .LeaderDuration
  have h9 := h .AddonCacheTime
  have h10 := h .DisableStatisticCronJob
  have h11 := h .KubeBurst
  have h12 := h .KubeQPS
  have h13 := h .WorkflowVersion
  have h14 := h .CorePluginPath
  have h15 := h .CustomPluginPath
  have h16 := h .DexServerURL
  have h17 := h .ExitOnLostLeader
  simp only [Config.get, Val.string.injEq, Val.duration.injEq, Val.bool.injEq, Val.float64.injEq,
    Val.int.injEq, Val.stringArray.injEq] at h1 h2 h3 h4 h5 h6 h7 h8 h9 h10 h11 h12 h13 h14 h15 h16 h17
  subst h1 h2 h3 h4 h5 h6 h7 h8 h9 h10 h11 h12 h13 h14 h15 h16 h17
  rfl

/-- A field holds a value of its declared type. -/
theorem get_kind (s : Config) (f : Field) : (s.get f).kind = f.kind := by
  cases f <;> rfl

/-- Reading a field just written gives the value written. -/
theorem get_set_same (s : Config) (f : Field) (v : Val) (hv : v.kind = f.kind) :
    (s.set f v).get f = v := by
  cases f <;> cases v <;> first | rfl | (simp [Val.kind, Field.kind] at hv)

/-- Writing a field leaves the other fields as they are. -/
theorem get_set_other (s : Config) (f g : Field) (v : Val) (hg : g ≠ f) :
    (s.set f v).get g = s.get g := by
  cases f <;> cases v <;> cases g <;> first | rfl | exact absurd rfl hg

/-- Storing the defaults of two lists, one after the other. -/
theorem storeAll_append (a b : List Decl) (s : Config) :
    storeAll (a ++ b) s = storeAll b (storeAll a s) := by
  simp [storeAll, List.foldl_append]

/-- The flags of `profiling.AddFlags` write outside of `*s`. -/
theorem storeAll_outside (prof : List ProfilingFlag) (s : Config) :
    storeAll (prof.map ProfilingFlag.decl) s = s := by
  induction prof with
  | nil => rfl
  | cons d ds ih => simpa [storeAll, ProfilingFlag.decl, Ptr.store] using ih

/-- Only the sixteen declarations of `AddFlags` itself write into `*s`. -/
theorem storeAll_allDecls (prof : List ProfilingFlag) (s c : Config) :
    storeAll (allDecls prof c) s = storeAll (ownDecls c) s := by
  rw [allDecls, storeAll_append, storeAll_outside]

/-- After the registrations every field of `*s` holds the default of `c`,
except `CorePluginPath`, which keeps its value. -/
theorem get_storeAll_own (s c : Config) (f : Field) :
    (storeAll (ownDecls c) s).get f = if f = .CorePluginPath then s.get f else c.get f := by
  cases f <;> simp [storeAll, ownDecls, Ptr.store, Config.set, Config.get]

/-- With free names `AddFlags` returns: its result, in closed form. -/
theorem AddFlags_ok (prof : List ProfilingFlag) (s : Config) (fs : FlagSet) (c : Config)
    (h : namesFree prof fs c) :
    AddFlags prof s fs c
      = .ok (⟨fs.formal ++ (allDecls prof c).map Decl.flag⟩, storeAll (ownDecls c) s) := by
  rw [AddFlags_eq, registerAll_ok _ _ _ h.1 h.2, storeAll_allDecls]

/-- The flag set panics on a redefined name: `AddFlags` returns exactly when
the names are free. -/
theorem AddFlags_ok_iff (prof : List ProfilingFlag) (s : Config) (fs : FlagSet) (c : Config) :
    (∃ r, AddFlags prof s fs c = .ok r) ↔ namesFree prof fs c := by
  constructor
  · rintro ⟨r, hr⟩
    rw [AddFlags_eq] at hr
    exact registerAll_ok_imp _ _ _ _ hr
  · intro h
    exact ⟨_, AddFlags_ok prof s fs c h⟩

/-- Among flags of pairwise distinct names, a name finds its own flag. -/
theorem find_flag_of_mem (ds : List Decl) (d : Decl) (hd : d ∈ ds)
    (hnd : (ds.map Decl.name).Nodup) :
    (ds.map Decl.flag).find? (fun fl => fl.Name == d.name) = some d.flag := by
  induction ds with
  | nil => cases hd
  | cons e es ih =>
    simp only [List.map_cons, List.nodup_cons] at hnd
    rcases List.mem_cons.1 hd with rfl | hd
    · simp [Decl.flag]
    · have hne : e.name ≠ d.name := fun hname =>
        hnd.1 (hname ▸ List.mem_map_of_mem Decl.name hd)
      simp only [List.map_cons, List.find?_cons]
      have : (e.flag.Name == d.name) = false := by simpa [Decl.flag] using hne
      rw [this]
      exact ih hd hnd.2

/-- After `AddFlags`, the name of a declaration resolves to the flag of that
declaration. -/
theorem Lookup_registered (prof : List ProfilingFlag) (fs : FlagSet) (c : Config)
    (h : namesFree prof fs c) (d : Decl) (hd : d ∈ allDecls prof c) :
    (FlagSet.mk (fs.formal ++ (allDecls prof c).map Decl.flag)).Lookup d.name = some d.flag := by
  have h1 : fs.formal.find? (fun fl => fl.Name == d.name) = none := h.1 d hd
  simp only [FlagSet.Lookup, List.find?_append, h1, Option.none_or]
  exact find_flag_of_mem _ d hd h.2

/-- Each declaration of `AddFlags` points to a field of `*s` other than
`CorePluginPath` and takes its default from the same field of `c`. -/
theorem own_decl_field (c : Config) (d : Decl) (hd : d ∈ ownDecls c) :
    ∃ f : Field, f ≠ .CorePluginPath ∧ d.p = .field f ∧ d.value = c.get f := by
  simp only [ownDecls, List.mem_cons, List.mem_singleton, List.not_mem_nil, or_false] at hd
  rcases hd with rfl | rfl | rfl | rfl | rfl | rfl | rfl | rfl | rfl | rfl | rfl | rfl | rfl | rfl | rfl | rfl
  all_goals exact ⟨_, by decide, rfl, rfl⟩

/-- Each field other than `CorePluginPath` has a declaration in `AddFlags`. -/
theorem field_has_own_decl (c : Config) (f : Field) (hf : f ≠ .CorePluginPath) :
    ∃ d ∈ ownDecls c, d.p = .field f ∧ d.value = c.get f := by
  cases f
  case CorePluginPath => exact absurd rfl hf
  all_goals simp [ownDecls, Config.get]


/-- A scalar flag given a value of its type stores the value. -/
theorem Flag_Set_scalar (fl : Flag) (s : Config) (v : Val) (hk : fl.kind ≠ .stringArray)
    (hv : v.kind = fl.kind) : fl.Set s v = .ok (fl.Value.store s v) := by
  unfold Flag.Set
  cases hfk : fl.kind <;> cases v <;> simp_all [Val.kind]

/-- Marking the flag of a name as changed keeps it under that name. -/
theorem Lookup_mark (fs : FlagSet) (name : String) (fl : Flag) (h : fs.Lookup name = some fl) :
    (FlagSet.mk (fs.formal.map
        (fun g => if g.Name == name then { g with Changed := true } else g))).Lookup name
      = some { fl with Changed := true } := by
  have hname : (fl.Name == name) = true := by
    have h2 : fs.formal.find? (fun g => g.Name == name) = some fl := h
    have h3 := List.find?_some h2
    exact h3
  have hp : ((fun g : Flag => g.Name == name) ∘
      (fun g : Flag => if g.Name == name then { g with Changed := true } else g))
      = (fun g : Flag => g.Name == name) := by
    funext g
    by_cases hg : g.Name = name
    · simp [hg]
    · simp [hg]
  simp only [FlagSet.Lookup, List.find?_map, hp] at h ⊢
  rw [h]
  have hname2 : fl.Name = name := by simpa using hname
  simp [hname2]

/-- A string-array flag that has a value already appends what it is given. -/
theorem SetAll_changed (vs : List String) (fs : FlagSet) (s : Config) (name : String) (fl : Flag)
    (h : fs.Lookup name = some fl) (hk : fl.kind = .stringArray) (hc : fl.Changed = true)
    (hp : fl.Value = .field .CustomPluginPath) :
    ∃ fs2, fs.SetAll s name vs
      = .ok (fs2, s.set .CustomPluginPath (.stringArray (s.PluginConfig.CustomPluginPath ++ vs))) := by
  induction vs generalizing fs s fl with
  | nil => exact ⟨fs, by simp [FlagSet.SetAll, Config.set]⟩
  | cons v vs ih =>
    have hset : fl.Set s (.string v)
        = .ok (s.set .CustomPluginPath (.stringArray (s.PluginConfig.CustomPluginPath ++ [v]))) := by
      simp [Flag.Set, hk, hc, hp, Ptr.load, Ptr.store, Config.get]
    obtain ⟨fs2, h2⟩ := ih _ (s.set .CustomPluginPath
      (.stringArray (s.PluginConfig.CustomPluginPath ++ [v]))) { fl with Changed := true }
      (Lookup_mark fs name fl h) hk rfl hp
    refine ⟨fs2, ?_⟩
    simp only [FlagSet.SetAll, FlagSet.Set, h, hset]
    rw [h2]
    simp [Config.set]


/-- A string-array flag without a value yet ends up with exactly the strings it
is given, the default being replaced. -/
theorem SetAll_fresh (vs : List String) (fs : FlagSet) (s : Config) (name : String) (fl : Flag)
    (h : fs.Lookup name = some fl) (hk : fl.kind = .stringArray) (hc : fl.Changed = false)
    (hp : fl.Value = .field .CustomPluginPath) (hvs : vs ≠ []) :
    ∃ fs2 s2, fs.SetAll s name vs = .ok (fs2, s2)
      ∧ s2.PluginConfig.CustomPluginPath = vs
      ∧ ∀ g : Field, g ≠ .CustomPluginPath → s2.get g = s.get g := by
  obtain ⟨v, rest, rfl⟩ := List.exists_cons_of_ne_nil hvs
  have hset : fl.Set s (.string v) = .ok (s.set .CustomPluginPath (.stringArray [v])) := by
    simp [Flag.Set, hk, hc, hp, Ptr.store]
  obtain ⟨fs2, h2⟩ := SetAll_changed rest _ (s.set .CustomPluginPath (.stringArray [v])) name
    { fl with Changed := true } (Lookup_mark fs name fl h) hk rfl hp
  have h3 : fs.SetAll s name (v :: rest) = .ok (fs2,
      (s.set .CustomPluginPath (.stringArray [v])).set .CustomPluginPath (.stringArray
        ((s.set .CustomPluginPath (.stringArray [v])).PluginConfig.CustomPluginPath ++ rest))) := by
    simp only [FlagSet.SetAll, FlagSet.Set, h, hset]
    exact h2
  refine ⟨fs2, _, h3, ?_, ?_⟩
  · simp [Config.set]
  · intro g hg
    rw [get_set_other _ _ g _ hg, get_set_other _ _ g _ hg]

/-! ## AddFlags: theorems -/

/-- C8, refuted: on an empty flag set, `AddFlags` registers sixteen flags, with
the targets listed; none of them points to `PluginConfig.CorePluginPath`. -/
theorem AddFlags_no_CorePluginPath_flag :
    (AddFlags [] (NewConfig "u") ⟨[]⟩ (NewConfig "u")).toOption.map
        (fun r => r.1.formal.map Flag.Value)
      = some [.field .BindAddr, .field .MetricPath, .field .DatastoreType,
          .field .DatastoreDatabase, .field .DatastoreURL, .field .LeaderID,
          .field .LeaderLockName, .field .LeaderDuration, .field .AddonCacheTime,
          .field .DisableStatisticCronJob, .field .KubeQPS, .field .KubeBurst,
          .field .WorkflowVersion, .field .DexServerURL, .field .CustomPluginPath,
          .field .ExitOnLostLeader]
      ∧ (AddFlags [] (NewConfig "u") ⟨[]⟩ (NewConfig "u")).toOption.map
          (fun r => r.1.formal.any (fun fl => fl.Value == .field .CorePluginPath))
        = some false := by
  constructor <;> decide

/-- C8, amended: when no name to register is taken, `AddFlags` returns, and for
every leaf field of `Config` other than `PluginConfig.CorePluginPath` it has
registered a flag (under a name that was free before) whose target is that
field of `*s` and whose default is the same field of `c`. It registers no flag
for `CorePluginPath`: a flag with that target was in the flag set before. -/
theorem AddFlags_registers (prof : List ProfilingFlag) (s : Config) (fs : FlagSet) (c : Config)
    (h : namesFree prof fs c) :
    ∃ fs' s', AddFlags prof s fs c = .ok (fs', s')
      ∧ (∀ f : Field, f ≠ .CorePluginPath →
          ∃ fl : Flag, fs.Lookup fl.Name = none ∧ fs'.Lookup fl.Name = some fl
            ∧ fl.Value = .field f ∧ fl.DefValue = c.get f)
      ∧ (∀ fl ∈ fs'.formal, fl.Value = .field .CorePluginPath → fl ∈ fs.formal) := by
  refine ⟨_, _, AddFlags_ok prof s fs c h, ?_, ?_⟩
  · intro f hf
    obtain ⟨d, hd, hp, hv⟩ := field_has_own_decl c f hf
    have hd2 : d ∈ allDecls prof c := List.mem_append_left _ hd
    exact ⟨d.flag, h.1 d hd2, Lookup_registered prof fs c h d hd2, hp, hv⟩
  · intro fl hfl hval
    rcases List.mem_append.1 hfl with hfl | hfl
    · exact hfl
    · obtain ⟨d, hd, rfl⟩ := List.mem_map.1 hfl
      rcases List.mem_append.1 hd with hd | hd
      · obtain ⟨f, hf, hp, _⟩ := own_decl_field c d hd
        have hval2 : d.p = .field .CorePluginPath := hval
        rw [hp] at hval2
        exact absurd (Ptr.field.inj hval2) hf
      · obtain ⟨e, _, rfl⟩ := List.mem_map.1 hd
        cases hval

/-- C8 at the empty flag set, `s` and `c` two default configurations. -/
theorem AddFlags_registers_witness :
    namesFree [] ⟨[]⟩ (NewConfig "b")
      ∧ ∃ fs' s', AddFlags [] (NewConfig "a") ⟨[]⟩ (NewConfig "b") = .ok (fs', s')
        ∧ (∀ f : Field, f ≠ .CorePluginPath →
            ∃ fl : Flag, (FlagSet.mk []).Lookup fl.Name = none ∧ fs'.Lookup fl.Name = some fl
              ∧ fl.Value = .field f ∧ fl.DefValue = (NewConfig "b").get f)
        ∧ (∀ fl ∈ fs'.formal, fl.Value = .field .CorePluginPath → fl ∈ (FlagSet.mk []).formal) :=
  ⟨by decide, AddFlags_registers [] (NewConfig "a") ⟨[]⟩ (NewConfig "b") (by decide)⟩

/-- C9: after `AddFlags` has bound its flags to `*s` (each field then holds the
default of `c`), giving a value `v` of the field's type to one of its scalar
flags, by name, makes the field bound to that name read back as `v` and leaves
every other field of `*s` as it was. -/
theorem Set_scalar_flag (prof : List ProfilingFlag) (s : Config) (fs : FlagSet) (c : Config)
    (h : namesFree prof fs c) (d : Decl) (hd : d ∈ ownDecls c) (f : Field)
    (hf : d.p = .field f) (hk : f.kind ≠ .stringArray) (v : Val) (hv : v.kind = f.kind) :
    ∃ fs' s' fs'' s'', AddFlags prof s fs c = .ok (fs', s')
      ∧ s'.get f = c.get f
      ∧ fs'.Set s' d.name v = .ok (fs'', s'')
      ∧ s''.get f = v
      ∧ ∀ g : Field, g ≠ f → s''.get g = s'.get g := by
  obtain ⟨f', hf', hp, hval⟩ := own_decl_field c d hd
  have hff : f' = f := Ptr.field.inj (hp.symm.trans hf)
  subst hff
  have hd2 : d ∈ allDecls prof c := List.mem_append_left _ hd
  have hkind : d.flag.kind = f'.kind := by
    show d.value.kind = f'.kind
    rw [hval, get_kind]
  have hset : d.flag.Set (storeAll (ownDecls c) s) v = .ok ((storeAll (ownDecls c) s).set f' v) := by
    rw [Flag_Set_scalar _ _ _ (by rw [hkind]; exact hk) (by rw [hkind]; exact hv)]
    show Except.ok (d.p.store _ v) = _
    rw [hp]; rfl
  obtain ⟨fs2, h2⟩ : ∃ fs2, (FlagSet.mk (fs.formal ++ (allDecls prof c).map Decl.flag)).Set
      (storeAll (ownDecls c) s) d.name v = .ok (fs2, (storeAll (ownDecls c) s).set f' v) := by
    simp only [FlagSet.Set, Lookup_registered prof fs c h d hd2, hset]
    exact ⟨_, rfl⟩
  refine ⟨_, _, fs2, _, AddFlags_ok prof s fs c h, ?_, h2, get_set_same _ f' v hv,
    fun g hg => get_set_other _ f' g v hg⟩
  rw [get_storeAll_own, if_neg hf']

/-- C9 at the flags "bind-addr" and "kube-api-qps" of a default configuration. -/
theorem Set_scalar_flag_witness :
    (namesFree [] ⟨[]⟩ (NewConfig "u")
      ∧ (⟨.field .BindAddr, "bind-addr", .string "0.0.0.0:8000",
            "The bind address used to serve the http APIs."⟩ : Decl) ∈ ownDecls (NewConfig "u")
      ∧ Field.BindAddr.kind ≠ .stringArray
      ∧ (Val.string "127.0.0.1:9000").kind = Field.BindAddr.kind
      ∧ ∃ fs' s' fs'' s'', AddFlags [] (NewConfig "u") ⟨[]⟩ (NewConfig "u") = .ok (fs', s')
        ∧ s'.get .BindAddr = (NewConfig "u").get .BindAddr
        ∧ fs'.Set s' "bind-addr" (.string "127.0.0.1:9000") = .ok (fs'', s'')
        ∧ s''.get .BindAddr = .string "127.0.0.1:9000"
        ∧ ∀ g : Field, g ≠ .BindAddr → s''.get g = s'.get g)
    ∧ (∃ fs' s' fs'' s'', AddFlags [] (NewConfig "u") ⟨[]⟩ (NewConfig "u") = .ok (fs', s')
        ∧ s'.get .KubeQPS = (NewConfig "u").get .KubeQPS
        ∧ fs'.Set s' "kube-api-qps" (.float64 50) = .ok (fs'', s'')
        ∧ s''.get .KubeQPS = .float64 50
        ∧ ∀ g : Field, g ≠ .KubeQPS → s''.get g = s'.get g) :=
  ⟨⟨by decide, by simp [ownDecls, NewConfig], by decide, rfl,
      Set_scalar_flag [] (NewConfig "u") ⟨[]⟩ (NewConfig "u") (by decide)
        ⟨.field .BindAddr, "bind-addr", .string "0.0.0.0:8000",
          "The bind address used to serve the http APIs."⟩
        (by simp [ownDecls, NewConfig]) .BindAddr rfl (by decide) (.string "127.0.0.1:9000") rfl⟩,
    Set_scalar_flag [] (NewConfig "u") ⟨[]⟩ (NewConfig "u") (by decide)
      ⟨.field .KubeQPS, "kube-api-qps", .float64 100,
        "the qps for kube clients. Low qps may lead to low throughput. High qps may give stress to api-server."⟩
      (by simp [ownDecls, NewConfig]) .KubeQPS rfl (by decide) (.float64 50) rfl⟩

/-- C10: after `AddFlags` has bound its flags to `*s`, giving the flag
"plugin-path" the strings of a non-empty list `vs`, one after the other, leaves
`PluginConfig.CustomPluginPath` of `*s` equal to `vs`, in the order given; the
other fields of `*s` are as they were. -/
theorem SetAll_plugin_path (prof : List ProfilingFlag) (s : Config) (fs : FlagSet) (c : Config)
    (h : namesFree prof fs c) (vs : List String) (hvs : vs ≠ []) :
    ∃ fs' s' fs'' s'', AddFlags prof s fs c = .ok (fs', s')
      ∧ fs'.SetAll s' "plugin-path" vs = .ok (fs'', s'')
      ∧ s''.PluginConfig.CustomPluginPath = vs
      ∧ ∀ g : Field, g ≠ .CustomPluginPath → s''.get g = s'.get g := by
  have hd : (⟨.field .CustomPluginPath, "plugin-path",
      .stringArray c.PluginConfig.CustomPluginPath, "the path of the plugin directory"⟩ : Decl)
      ∈ allDecls prof c := List.mem_append_left _ (by simp [ownDecls])
  have hl := Lookup_registered prof fs c h _ hd
  obtain ⟨fs2, s2, h1, h2, h3⟩ := SetAll_fresh vs _ (storeAll (ownDecls c) s) _ _ hl rfl rfl rfl hvs
  exact ⟨_, _, fs2, s2, AddFlags_ok prof s fs c h, h1, h2, h3⟩

/-- C10 at the values "a", "b", "a" given to a default configuration, next to a
flag set that holds a flag of its own. -/
theorem SetAll_plugin_path_witness :
    namesFree [] ⟨[⟨"v", "log level", .outside, .int, .int 0, false⟩]⟩ (NewConfig "u")
      ∧ ["a", "b", "a"] ≠ []
      ∧ ∃ fs' s' fs'' s'',
        AddFlags [] (NewConfig "u") ⟨[⟨"v", "log level", .outside, .int, .int 0, false⟩]⟩
            (NewConfig "u") = .ok (fs', s')
        ∧ fs'.SetAll s' "plugin-path" ["a", "b", "a"] = .ok (fs'', s'')
        ∧ s''.PluginConfig.CustomPluginPath = ["a", "b", "a"]
        ∧ ∀ g : Field, g ≠ .CustomPluginPath → s''.get g = s'.get g :=
  ⟨by decide, by decide,
    SetAll_plugin_path [] (NewConfig "u") ⟨[⟨"v", "log level", .outside, .int, .int 0, false⟩]⟩
      (NewConfig "u") (by decide) ["a", "b", "a"] (by decide)⟩

end config
